import Mathlib

/-!
Shallow embedding of `src/ball_animation.py`: a single ball bouncing inside a
fixed-size canvas.  The program's mutable globals (`ball_x`, `ball_y`, `dx`,
`dy`, `ball_radius`, `ball_color`) become a `Ball` record; the per-frame
callback `update()` becomes a pure function from the pre-state to the
post-state together with the ordered list of canvas calls it issues.
All numeric values in the program are Python integers (exact arithmetic),
so the embedding uses `Int`.
-/

namespace BallAnimation

/-- Canvas width: `WIDTH = 800`. -/
def WIDTH : Int := 800

/-- Canvas height: `HEIGHT = 600`. -/
def HEIGHT : Int := 600

/-- The mutable globals of the program, gathered into one state record. -/
structure Ball where
  ball_x : Int
  ball_y : Int
  dx : Int
  dy : Int
  ball_radius : Int
  ball_color : String
  deriving DecidableEq, Repr

/-- One canvas side effect, mirroring the three canvas calls the program can
make: `canvas.clear()`, `canvas.circle(x, y, r, fill=c)`, `canvas.update()`. -/
inductive Effect where
  | clear : Effect
  | circle (x y radius : Int) (fill : String) : Effect
  | update : Effect
  deriving DecidableEq, Repr

/-- One invocation of the per-frame callback `update()` from
`src/ball_animation.py`, lines 16-36: advance the position by the velocity,
flip `dx` when the post-move x overlaps a vertical wall, flip `dy` likewise
for the horizontal walls, then clear the canvas, draw the ball at the new
position, and flush the display.  Returns the post-state and the canvas
calls in the order they are issued. -/
def update (b : Ball) : Ball × List Effect :=
  let ball_x := b.ball_x + b.dx
  let ball_y := b.ball_y + b.dy
  let dx := if ball_x + b.ball_radius > WIDTH ∨ ball_x - b.ball_radius < 0 then -b.dx else b.dx
  let dy := if ball_y + b.ball_radius > HEIGHT ∨ ball_y - b.ball_radius < 0 then -b.dy else b.dy
  (⟨ball_x, ball_y, dx, dy, b.ball_radius, b.ball_color⟩,
   [Effect.clear, Effect.circle ball_x ball_y b.ball_radius b.ball_color, Effect.update])

/-- The state transition of one frame (`update()` without its canvas calls). -/
def step (b : Ball) : Ball := (update b).1

/-- The canvas calls issued by one frame, in order. -/
def effects (b : Ball) : List Effect := (update b).2

/-- `iterate n b` is the state after `n` frames starting from `b`. -/
def iterate : Nat → Ball → Ball
  | 0, b => b
  | n + 1, b => iterate n (step b)

/-- The program's initial state (`src/ball_animation.py`, lines 9-14):
ball centered in the canvas, velocity `(5, 5)`, radius `20`, color red. -/
def init : Ball := ⟨WIDTH / 2, HEIGHT / 2, 5, 5, 20, "red"⟩

/-- Inductive invariant for the trajectory from `init`: radius stays `20`,
each velocity component stays `±5`, positions stay multiples of `5` within
`[15, 785] × [15, 585]`, and at the extreme positions the velocity already
points back inside. -/
def Inv (b : Ball) : Prop :=
  b.ball_radius = 20 ∧
  (b.dx = 5 ∨ b.dx = -5) ∧ (b.dy = 5 ∨ b.dy = -5) ∧
  15 ≤ b.ball_x ∧ b.ball_x ≤ 785 ∧ b.ball_x % 5 = 0 ∧
  (b.ball_x = 785 → b.dx = -5) ∧ (b.ball_x = 15 → b.dx = 5) ∧
  15 ≤ b.ball_y ∧ b.ball_y ≤ 585 ∧ b.ball_y % 5 = 0 ∧
  (b.ball_y = 585 → b.dy = -5) ∧ (b.ball_y = 15 → b.dy = 5)

theorem inv_step (b : Ball) (h : Inv b) : Inv (step b) := by
  obtain ⟨hr, hdx, hdy, hx1, hx2, hx5, hxh, hxl, hy1, hy2, hy5, hyh, hyl⟩ := h
  simp only [Inv, step, update, WIDTH, HEIGHT, hr] at *
  rcases hdx with h | h <;> rcases hdy with h2 | h2 <;>
    split_ifs <;> simp_all <;> omega

theorem inv_iterate (n : Nat) (b : Ball) (h : Inv b) : Inv (iterate n b) := by
  induction n generalizing b with
  | zero => exact h
  | succ n ih => exact ih (step b) (inv_step b h)

theorem inv_init : Inv init := by norm_num [Inv, init, WIDTH, HEIGHT]

/-- Claim C1: the per-frame update negates `dx` exactly when the post-move
position satisfies `ball_x + ball_radius > WIDTH` or
`ball_x - ball_radius < 0` (strict inequalities, evaluated on the advanced
position `ball_x + dx`), and leaves `dx` unchanged otherwise. -/
theorem x_reflection (b : Ball) :
    ((b.ball_x + b.dx + b.ball_radius > WIDTH ∨ b.ball_x + b.dx - b.ball_radius < 0) →
      (step b).dx = -b.dx) ∧
    (¬(b.ball_x + b.dx + b.ball_radius > WIDTH ∨ b.ball_x + b.dx - b.ball_radius < 0) →
      (step b).dx = b.dx) := by
  refine ⟨fun h => ?_, fun h => ?_⟩ <;>
    simp only [step, update] <;> split_ifs with hc <;> first | rfl | exact absurd h hc |
      exact absurd hc h

/-- Witness for C1 at the spec's scenario B: from `(785, 300)` with velocity
`(5, 5)` and radius `20`, the post-move `x = 790` gives `790 + 20 > 800`,
so `dx` flips to `-5`. -/
theorem x_reflection_witness :
    (step ⟨785, 300, 5, 5, 20, "red"⟩).dx = -5 :=
  (x_reflection ⟨785, 300, 5, 5, 20, "red"⟩).1 (by decide)

/-- Claim C2: the post-update position equals the pre-update position plus
the pre-update velocity, componentwise; the reflection tests never modify
the position (no clamping). -/
theorem position_update (b : Ball) :
    (step b).ball_x = b.ball_x + b.dx ∧ (step b).ball_y = b.ball_y + b.dy := by
  exact ⟨rfl, rfl⟩

/-- Claim C3: the Y-axis reflection is symmetric to the X-axis one (negate
`dy` exactly when the post-move `ball_y + ball_radius > HEIGHT` or
`ball_y - ball_radius < 0`) and independent of it: from
`position = (15, 15)`, `velocity = (-5, -5)`, `radius = 20` one update
yields `position = (10, 10)` and `velocity = (5, 5)`, both flips in the
same frame. -/
theorem y_reflection (b : Ball) :
    (((b.ball_y + b.dy + b.ball_radius > HEIGHT ∨ b.ball_y + b.dy - b.ball_radius < 0) →
       (step b).dy = -b.dy) ∧
     (¬(b.ball_y + b.dy + b.ball_radius > HEIGHT ∨ b.ball_y + b.dy - b.ball_radius < 0) →
       (step b).dy = b.dy)) ∧
    step ⟨15, 15, -5, -5, 20, "red"⟩ = ⟨10, 10, 5, 5, 20, "red"⟩ := by
  refine ⟨⟨fun h => ?_, fun h => ?_⟩, by decide⟩ <;>
    simp only [step, update] <;> split_ifs with hc <;> first | rfl | exact absurd h hc |
      exact absurd hc h

/-- Witness for C3: from `(400, 585)` with velocity `(5, 5)` and radius `20`,
the post-move `y = 590` gives `590 + 20 > 600`, so `dy` flips to `-5`. -/
theorem y_reflection_witness :
    (step ⟨400, 585, 5, 5, 20, "red"⟩).dy = -5 :=
  ((y_reflection ⟨400, 585, 5, 5, 20, "red"⟩).1).1 (by decide)

/-- Claim C4: each invocation of `update()` issues exactly three canvas
calls, in order: clear the canvas, draw one filled circle at the updated
position with the ball's radius and color, then flush the display; the
circle is drawn at the already-advanced position, i.e. after the position
update and both reflection tests have produced the post-state. -/
theorem draw_effects (b : Ball) :
    effects b = [Effect.clear,
      Effect.circle (step b).ball_x (step b).ball_y (step b).ball_radius (step b).ball_color,
      Effect.update] := by
  rfl

/-- Claim C5: a ball moving fast enough toward a wall ends one update
partially outside the canvas with its velocity already negated: from
`(700, 300)` with velocity `(150, 0)` and radius `20`, the update leaves
`ball_x = 850` (so `ball_x + radius = 870 > 800 = WIDTH`) while `dx` has
flipped to `-150`; the position is not clamped back inside. -/
theorem overshoot_without_clamp :
    (step ⟨700, 300, 150, 0, 20, "red"⟩).ball_x + (step ⟨700, 300, 150, 0, 20, "red"⟩).ball_radius
      > WIDTH ∧
    (step ⟨700, 300, 150, 0, 20, "red"⟩).ball_x = 850 ∧
    (step ⟨700, 300, 150, 0, 20, "red"⟩).dx = -150 := by
  decide

/-- Claim C6: `ball_radius` and `ball_color` are fixed after initialization:
after any number of frames they equal their initial values; the update
mutates only position and velocity. -/
theorem radius_color_constant (b : Ball) (n : Nat) :
    (iterate n b).ball_radius = b.ball_radius ∧ (iterate n b).ball_color = b.ball_color := by
  induction n generalizing b with
  | zero => exact ⟨rfl, rfl⟩
  | succ n ih => exact ⟨((ih (step b)).1).trans rfl, ((ih (step b)).2).trans rfl⟩

/-- Claim C7: the per-frame update is total: for every ball state it
produces a post-state and an effect list; the embedding `update` is a total
computable function because the source has no failure branch (its only
operations are integer arithmetic, comparisons and canvas calls). -/
theorem update_total (b : Ball) : ∃ r : Ball × List Effect, update b = r :=
  ⟨update b, rfl⟩

/-- Claim C9: the update preserves the magnitude of each velocity component
for every ball state: the only mutation of velocity is sign negation, so
the ball's speed never changes. -/
theorem speed_preserved (b : Ball) :
    (step b).dx.natAbs = b.dx.natAbs ∧ (step b).dy.natAbs = b.dy.natAbs := by
  constructor <;> simp only [step, update] <;> split_ifs <;>
    simp [Int.natAbs_neg]

/-- Claim C8: starting from the program's actual initial state
(`WIDTH = 800`, `HEIGHT = 600`, position `(400, 300)`, velocity `(5, 5)`,
radius `20`), after any number of frames the position satisfies
`15 ≤ ball_x ≤ 785` and `15 ≤ ball_y ≤ 585`, and each velocity component
stays in `{-5, 5}`: the ball never overhangs an edge by more than 5 pixels
and never escapes the canvas. -/
theorem reachable_bounds (n : Nat) :
    15 ≤ (iterate n init).ball_x ∧ (iterate n init).ball_x ≤ 785 ∧
    15 ≤ (iterate n init).ball_y ∧ (iterate n init).ball_y ≤ 585 ∧
    ((iterate n init).dx = 5 ∨ (iterate n init).dx = -5) ∧
    ((iterate n init).dy = 5 ∨ (iterate n init).dy = -5) := by
  obtain ⟨-, hdx, hdy, hx1, hx2, -, -, -, hy1, hy2, -, -, -⟩ := inv_iterate n init inv_init
  exact ⟨hx1, hx2, hy1, hy2, hdx, hdy⟩

set_option maxRecDepth 100000 in
/-- Claim C10: exact wall tangency does not bounce, because both reflection
comparisons are strict: whenever the post-move position touches a wall
exactly (`x + radius = WIDTH` with the other guard also off, and the three
symmetric cases), the corresponding velocity component is unchanged.
Moreover such a tangent frame is reachable from `init`: after 75 frames the
state has `ball_x = 775`, `dx = 5`, so the 76th move lands exactly at
`780 + 20 = 800 = WIDTH` and `dx` stays `5`. -/
theorem tangency_no_bounce :
    (∀ b : Ball,
      (b.ball_x + b.dx + b.ball_radius = WIDTH → 0 ≤ b.ball_x + b.dx - b.ball_radius →
        (step b).dx = b.dx) ∧
      (b.ball_x + b.dx - b.ball_radius = 0 → b.ball_x + b.dx + b.ball_radius ≤ WIDTH →
        (step b).dx = b.dx) ∧
      (b.ball_y + b.dy + b.ball_radius = HEIGHT → 0 ≤ b.ball_y + b.dy - b.ball_radius →
        (step b).dy = b.dy) ∧
      (b.ball_y + b.dy - b.ball_radius = 0 → b.ball_y + b.dy + b.ball_radius ≤ HEIGHT →
        (step b).dy = b.dy)) ∧
    ((iterate 75 init).ball_x = 775 ∧ (iterate 75 init).dx = 5 ∧
     (iterate 75 init).ball_radius = 20 ∧
     (step (iterate 75 init)).ball_x + (step (iterate 75 init)).ball_radius = WIDTH ∧
     (step (iterate 75 init)).dx = 5) := by
  refine ⟨fun b => ⟨fun h1 h2 => ?_, fun h1 h2 => ?_, fun h1 h2 => ?_, fun h1 h2 => ?_⟩,
    by decide⟩ <;>
    simp only [step, update, WIDTH, HEIGHT] at * <;> split_ifs with hc <;>
      first | rfl | omega

/-- Witness for C10: a state whose post-move position is exactly tangent to
the right wall, `(755, 300)` with velocity `(25, 0)` and radius `20`:
post-move `x = 780`, `780 + 20 = 800 = WIDTH`, and `dx` is unchanged. -/
theorem tangency_no_bounce_witness :
    (step ⟨755, 300, 25, 0, 20, "red"⟩).dx = 25 :=
  (tangency_no_bounce.1 ⟨755, 300, 25, 0, 20, "red"⟩).1 (by decide) (by decide)

end BallAnimation
